import Mathlib

/-!
Verification of the batch job engine and per-row analysis orchestrator of the
land-parcel valuation backend.  The definitions below are a shallow embedding of
the Python sources: `models/job.py`, `services/batch.py`,
`services/parcel_analysis.py`, `routes/analysis_routes.py` and `main.py`.
Database round-trips are modelled as pure updates on an explicit job store
(a list of job records); asynchronous observations of concurrently mutated
state (refreshes) are passed in as environment parameters.
-/

namespace Property

/-! ## Data model (`models/job.py`) -/

/-- Job status enumeration (`JobStatus` in `models/job.py`). -/
inductive JobStatus where
  | queued
  | processing
  | completed
  | failed
  | cancelled
deriving DecidableEq, Repr

/-- Job priority enumeration (`JobPriority` in `models/job.py`). -/
inductive JobPriority where
  | low
  | normal
  | high
deriving DecidableEq, Repr

/-- Durable job record (`BatchJob` in `models/job.py`).  Timestamps are
modelled as natural numbers; optional fields as `Option`. -/
structure BatchJob where
  job_id : String
  priority : JobPriority
  status : JobStatus
  total_rows : Nat
  completed_rows : Nat
  failed_rows : Nat
  error_message : Option String
  result_url : Option String
  created_at : Nat
  started_at : Option Nat
  completed_at : Option Nat
deriving DecidableEq, Repr

/-- Boolean test for the PROCESSING state (used in SQL `where` filters). -/
def JobStatus.isProcessing : JobStatus → Bool
  | .processing => true
  | _ => false

/-- Boolean test for the QUEUED state (used in SQL `where` filters). -/
def JobStatus.isQueued : JobStatus → Bool
  | .queued => true
  | _ => false

/-- Terminal states per the spec glossary: COMPLETED, FAILED or CANCELLED. -/
def JobStatus.isTerminal : JobStatus → Bool
  | .completed => true
  | .failed => true
  | .cancelled => true
  | _ => false

/-! ## JSON-like values

The analysis documents and CSV rows are Python dictionaries with string keys;
we model them as association lists over an inductive value type.  Numbers in
the source are Python ints/floats; the claims under consideration never depend
on fractional arithmetic, so numbers are modelled as integers. -/

/-- JSON-like value: the payload type of analysis documents and rows. -/
inductive JVal where
  | jnull
  | jbool : Bool → JVal
  | jnum : Int → JVal
  | jstr : String → JVal
  | jarr : List JVal → JVal
  | jobj : List (String × JVal) → JVal
deriving Repr

/-- A Python dictionary with string keys (e.g. one CSV row, one document). -/
abbrev Row := List (String × JVal)

/-- Whether a value is a dictionary. -/
def JVal.isObj : JVal → Bool
  | .jobj _ => true
  | _ => false

/-- Dictionary lookup: `d.get(k)` returning `None` when absent. -/
def dget (d : Row) (k : String) : Option JVal :=
  (d.find? (fun p => p.1 == k)).map (·.2)

/-- Dictionary lookup with default: `d.get(k, v)`. -/
def dgetD (d : Row) (k : String) (v : JVal) : JVal :=
  (dget d k).getD v

/-- Dictionary lookup defaulting to an empty dict: `d.get(k, {})`, for keys
whose values are dictionaries in the source data. -/
def dgetObj (d : Row) (k : String) : Row :=
  match dget d k with
  | some (.jobj fields) => fields
  | _ => []

/-- Dictionary lookup defaulting to an empty list: `d.get(k, [])`, for keys
whose values are lists in the source data. -/
def dgetArr (d : Row) (k : String) : List JVal :=
  match dget d k with
  | some (.jarr l) => l
  | _ => []

/-- Membership test: `k in d`. -/
def dcontains (d : Row) (k : String) : Bool :=
  (dget d k).isSome

/-- Dictionary assignment `d[k] = v`: replaces the first binding of `k` in
place (a dict has at most one), otherwise appends a new binding at the end,
matching Python dict insertion-order semantics. -/
def dset (d : Row) (k : String) (v : JVal) : Row :=
  match d with
  | [] => [(k, v)]
  | p :: rest => if p.1 = k then (k, v) :: rest else p :: dset rest k v

/-- Dictionary merge `d.update(other)`: assigns every binding of `other`
into `d` in order. -/
def dupdate (d other : Row) : Row :=
  other.foldl (fun acc p => dset acc p.1 p.2) d

/-! ## Scheduler loop (`BatchService.run_job_scheduler`, `services/batch.py`)

One iteration of the `while True` loop is modelled as a pure transformation of
the job store.  The SQL `SELECT ... WHERE status = QUEUED ORDER BY created_at
ASC LIMIT slots` is modelled by filtering, sorting on `created_at` and taking
a prefix. -/

/-- The hard-coded admission ceiling (`MAX_CONCURRENT_JOBS = 3`). -/
def MAX_CONCURRENT_JOBS : Nat := 3

/-- Ordering used by the scheduler query: ascending `created_at`. -/
def createdLE (a b : BatchJob) : Prop := a.created_at ≤ b.created_at

instance : DecidableRel createdLE := fun a b => Nat.decLe a.created_at b.created_at

instance : IsTotal BatchJob createdLE := ⟨fun a b => Nat.le_total a.created_at b.created_at⟩

instance : IsTrans BatchJob createdLE := ⟨fun _ _ _ => Nat.le_trans⟩

/-- Number of jobs currently PROCESSING (`select count(*) where status = PROCESSING`). -/
def activeCount (store : List BatchJob) : Nat :=
  (store.filter (fun j => j.status.isProcessing)).length

/-- The jobs selected by one scheduler tick: QUEUED jobs ordered by
`created_at` ascending, limited to the number of free slots. -/
def selectedJobs (store : List BatchJob) : List BatchJob :=
  (List.insertionSort createdLE (store.filter (fun j => j.status.isQueued))).take
    (MAX_CONCURRENT_JOBS - activeCount store)

/-- One tick of `BatchService.run_job_scheduler`: if the PROCESSING count is
below the ceiling, every selected job is transitioned to PROCESSING with
`started_at` stamped; otherwise the store is untouched. -/
def run_job_scheduler_tick (store : List BatchJob) (t : Nat) : List BatchJob :=
  if activeCount store < MAX_CONCURRENT_JOBS then
    store.map (fun j =>
      if (selectedJobs store).any (fun r => r.job_id == j.job_id) then
        { j with status := JobStatus.processing, started_at := some t }
      else j)
  else store

/-! ## Recovery sweep (`BatchService.recover_stuck_jobs`, `services/batch.py`)
and startup order (`lifespan` in `main.py`). -/

/-- Error message written by the recovery sweep. -/
def interruptedMessage : String := "System Restarted: Job interrupted unexpectedly."

/-- `BatchService.recover_stuck_jobs`: every job found PROCESSING is
force-transitioned to FAILED with the interrupted message and a completion
timestamp; all other jobs are left untouched. -/
def recover_stuck_jobs (store : List BatchJob) (t : Nat) : List BatchJob :=
  store.map (fun j =>
    if j.status.isProcessing then
      { j with status := JobStatus.failed,
               error_message := some interruptedMessage,
               completed_at := some t }
    else j)

/-- The order in which the event loop serialises the database work of the two
tasks created by `lifespan` in `main.py` (lines 37-38): the recovery sweep's
task is created first, but `lifespan` never awaits it, and both coroutines
suspend at their first database await, so either task's transaction may
commit first.  `sweepFirst` is the schedule in which the sweep's select and
commit complete before the scheduler's first tick runs; `tickFirst` is the
schedule in which the first tick's promotions commit before the sweep's
select executes. -/
inductive StartupOrder where
  | sweepFirst
  | tickFirst
deriving DecidableEq, Repr

/-- Outcome of process startup on the job store under a given serialisation of
the recovery task and the scheduler's first tick.  The model runs each task's
database work to completion in one of the two orders; both coarse schedules
are realisable under the cooperative scheduler, and `main.py` does nothing to
exclude either. -/
def lifespan_startup (o : StartupOrder) (store : List BatchJob)
    (tRecover tTick : Nat) : List BatchJob :=
  match o with
  | .sweepFirst => run_job_scheduler_tick (recover_stuck_jobs store tRecover) tTick
  | .tickFirst => recover_stuck_jobs (run_job_scheduler_tick store tTick) tRecover

/-! ## Job store writers

Each durable write performed by a component of the batch engine, modelled as a
transformation of the single job record it targets.  The record passed in
carries the status the writer observes when it re-fetches or refreshes the job,
so races with a concurrent cancellation or failure marking are represented by
the status of the argument. -/

/-- The progress write of `on_progress` inside
`BatchService.process_job_background`: fires only when `completed` is a
multiple of 10 or the final row; if the job has become CANCELLED it suppresses
the write and raises the shared cancellation flag (second component),
otherwise it stores the counters.  It never modifies `status`. -/
def on_progress (job : BatchJob) (completed total : Nat) (is_success : Bool) :
    BatchJob × Bool :=
  if completed % 10 == 0 || completed == total then
    if job.status = JobStatus.cancelled then (job, true)
    else
      ({ job with completed_rows := completed,
                  total_rows := total,
                  failed_rows := if is_success then job.failed_rows
                                 else job.failed_rows + 1 }, false)
  else (job, false)

/-- The completion write at the end of `process_job_background`: after the
refresh, a job observed CANCELLED is left untouched (early return); otherwise
status becomes COMPLETED, both row counters are set to the number of flattened
rows, and `result_url` points at the written artifact. -/
def completion_write (job : BatchJob) (flattenedLen : Nat) (path : String)
    (t : Nat) : BatchJob :=
  if job.status = JobStatus.cancelled then job
  else
    { job with status := JobStatus.completed,
               completed_at := some t,
               completed_rows := flattenedLen,
               total_rows := flattenedLen,
               result_url := some path }

/-- The failure write in the exception handler of `process_job_background`:
the job re-fetched in a fresh session is marked FAILED with the error message
unless it is observed CANCELLED. -/
def failure_write (job : BatchJob) (msg : String) (t : Nat) : BatchJob :=
  if job.status = JobStatus.cancelled then job
  else
    { job with status := JobStatus.failed,
               error_message := some ("Error: " ++ msg),
               completed_at := some t }

/-- The cancellation endpoint (`cancel_job` in `routes/analysis_routes.py`):
only a QUEUED or PROCESSING job is flipped to CANCELLED; on any terminal
status the request is a no-op that still reports success. -/
def cancel_job (job : BatchJob) (t : Nat) : BatchJob :=
  if job.status = JobStatus.queued ∨ job.status = JobStatus.processing then
    { job with status := JobStatus.cancelled,
               error_message := some "Cancelled by user",
               completed_at := some t }
  else job

/-! ## Row-level work pool (`BatchService.analyze_file`, `services/batch.py`)

Each input row of the parsed file gives one row task.  The environment of a
task records what the concurrently mutated world hands the task: the value of
the shared cancellation flag at the task's two checkpoints (`job_state`
checked on entry, before acquiring the semaphore, and again after acquiring
it, before any processing), the bulk-resolved parcel gid for the row
(`gid_map.get(idx)`, `none` when no parcel contains the point), and the
outcome of the `get_analysis` call (`Except.error` when the `try` block
raises). -/

/-- One row task of `analyze_file`, with its environment. -/
structure RowTask where
  row : Row
  gid : Option Nat
  analysis : Except String JVal
  cancelledAtEntry : Bool
  cancelledInSlot : Bool

/-- The `_process_row` closure inside `analyze_file`: returns `none` (Python
`None`) when the cancellation flag is set at either checkpoint; otherwise
copies the row and attaches either the analysis document, the "No parcel
found" error, or the caught exception text. -/
def _process_row (rt : RowTask) : Option Row :=
  if rt.cancelledAtEntry then none
  else if rt.cancelledInSlot then none
  else
    match rt.gid with
    | none => some (dset rt.row "error" (JVal.jstr "No parcel found"))
    | some _ =>
      match rt.analysis with
      | .ok res => some (dset rt.row "analysis" res)
      | .error e => some (dset rt.row "error" (JVal.jstr e))

/-- The gathered, `None`-filtered per-row results of the pool
(`results = [r for r in results if r is not None]`). -/
def row_pool_results (tasks : List RowTask) : List Row :=
  (tasks.map _process_row).filterMap id

/-- `BatchService.analyze_file`: a file-parsing failure raises
`ValueError("File parsing failed: ...")` before any row is processed; a
parsed file yields the filtered per-row results together with the batch id. -/
def analyze_file (parse : Except String (List RowTask)) (job_id : String) :
    Except String (List Row × String) :=
  match parse with
  | .error e => .error ("File parsing failed: " ++ e)
  | .ok tasks => .ok (row_pool_results tasks, job_id)

/-! ## Result materializer (`BatchService.flatten_analysis_results`) -/

/-- Sum of `w.get("area_acres", 0)` over a list of wetland fragments (the
values are numeric in the source data). -/
def wetlandSum (l : List JVal) : Int :=
  l.foldl (fun acc w =>
    acc + (match w with
           | .jobj f => (match dget f "area_acres" with
                         | some (.jnum n) => n
                         | _ => 0)
           | _ => 0)) 0

/-- Flattening of one per-row result.  All fields except "analysis" are copied
verbatim; when the analysis document is present (truthy) and carries no
top-level "error" key, the fixed derived columns are extracted with their
documented defaults; otherwise no derived column is added. -/
def flatten_row (row : Row) : Row :=
  let flat := row.filter (fun p => !(p.1 == "analysis"))
  let analysis := dgetObj row "analysis"
  if !analysis.isEmpty && !(dcontains analysis "error") then
    let f0 := dupdate flat (dgetObj analysis "parcels")
    let f1 := dset f0 "road_frontage_ft"
      (dgetD (dgetObj analysis "road_analysis") "road_frontage_feet" (JVal.jnum 0))
    let f2 := dset f1 "buildable_acres"
      (dgetD (dgetObj analysis "buildable_area") "buildable_acres" (JVal.jnum 0))
    let f3 := dset f2 "unbuildable_acres"
      (dgetD (dgetObj analysis "buildable_area") "unbuildable_acres" (JVal.jnum 0))
    let f4 := dset f3 "elevation_change_ft"
      (dgetD (dgetObj analysis "elevation_change") "elevation_change_feet" (JVal.jnum 0))
    let f5 := dset f4 "tree_coverage_pct"
      (dgetD (dgetObj analysis "tree_coverage") "tree_percentage" (JVal.jnum 0))
    let f6 := dset f5 "flood_zone"
      (dgetD (dgetObj analysis "flood_hazard") "flood_zone_summary" (JVal.jstr "X"))
    let f7 := dset f6 "wetland_acres"
      (JVal.jnum (wetlandSum (dgetArr (dgetObj analysis "wetland_analysis") "wetland_analysis")))
    let f8 := dset f7 "has_water_well"
      (dgetD (dgetObj analysis "well_analysis") "intersects" (JVal.jbool false))
    let f9 := dset f8 "gas_pipeline"
      (dgetD (dgetObj analysis "gas_lines") "intersects" (JVal.jbool false))
    let f10 := dset f9 "electric_lines"
      (dgetD (dgetObj analysis "electric_lines") "intersects" (JVal.jbool false))
    let f11 := dset f10 "img_parcel" ((dget analysis "image_url").getD JVal.jnull)
    let f12 := dset f11 "img_flood" ((dget analysis "flood_image_url").getD JVal.jnull)
    dset f12 "img_topo" ((dget analysis "contour_image_url").getD JVal.jnull)
  else flat

/-- `BatchService.flatten_analysis_results`: one flattened record per per-row
result, in order. -/
def flatten_analysis_results (results : List Row) : List Row :=
  results.map flatten_row

/-! ## Background processor (`BatchService.process_job_background`) -/

/-- Environment of one `process_job_background` run: the job fetched at the
start (`db.get`), the file-parsing outcome feeding `analyze_file`, the row
tasks of the parsed file, the job status observed by `db.refresh` after the
row pool returns, the job re-fetched inside the exception handler, and the
wall-clock time of the terminal write. -/
structure JobEnv where
  job0 : Option BatchJob
  parse : Except String (List RowTask)
  refreshedStatus : JobStatus
  errJob : Option BatchJob
  t : Nat

/-- Outcome of one `process_job_background` run: the final durable job record
(`none` when no record was found and nothing was written) and the rows of the
result artifact written to `/tmp/exports` (`none` when no artifact was
written). -/
structure JobOutcome where
  job : Option BatchJob
  artifact : Option (List Row)

/-- Artifact path `f"/tmp/exports/results_{job_id}.csv"`. -/
def artifactPath (job_id : String) : String :=
  "/tmp/exports/results_" ++ job_id ++ ".csv"

/-- `BatchService.process_job_background`: returns early when the job is
missing or already CANCELLED; a raised file-parsing error lands in the
exception handler's failure write; otherwise the flattened results are written
as the artifact and the completion write runs against the refreshed status. -/
def process_job_background (env : JobEnv) (job_id : String) : JobOutcome :=
  match env.job0 with
  | none => ⟨none, none⟩
  | some job0 =>
    if job0.status = JobStatus.cancelled then ⟨some job0, none⟩
    else
      match analyze_file env.parse job_id with
      | .error e => ⟨(env.errJob).map (fun j => failure_write j e env.t), none⟩
      | .ok (results, _) =>
        if env.refreshedStatus = JobStatus.cancelled then
          ⟨some { job0 with status := env.refreshedStatus }, none⟩
        else
          ⟨some (completion_write { job0 with status := env.refreshedStatus }
              (flatten_analysis_results results).length (artifactPath job_id) env.t),
           some (flatten_analysis_results results)⟩

/-! ## Per-row analysis orchestrator (`AnalysisService`, `services/parcel_analysis.py`)

The persisted `AnalysisResult` table is modelled as a list of records; the
fallible collaborators of one `get_analysis` call (parcel fetch, the metric
and image functions, the save commit) are supplied by an environment. -/

/-- Persisted analysis record (`AnalysisResult` schema), keyed by parcel gid. -/
structure AnalysisResult where
  parcel_gid : Nat
  result_data : JVal
  batch_id : Option String
  processing_mode : String
  csv_source_data : Option Row

/-- The persisted analysis table. -/
abbrev AnalysisStore := List AnalysisResult

/-- `select(AnalysisResult).where(parcel_gid == gid)` with `.first()`. -/
def findRecord (store : AnalysisStore) (gid : Nat) : Option AnalysisResult :=
  store.find? (fun r => r.parcel_gid == gid)

/-- The fragment `_safe_run` substitutes for a failed task. -/
def errorFragment (e : String) : JVal :=
  JVal.jobj [("error", JVal.jstr e), ("status", JVal.jstr "failed")]

/-- `AnalysisService._safe_run`: a task failure is converted into an
`{error, status: "failed"}` fragment under the task's own key; a success is
returned under its key unchanged. -/
def _safe_run (key : String) (outcome : Except String JVal) : String × JVal :=
  match outcome with
  | .ok v => (key, v)
  | .error e => (key, errorFragment e)

/-- Keys of `analysis_tasks_map` in `get_analysis`, in construction order. -/
def analysis_task_keys : List String :=
  ["gas_lines", "electric_lines", "road_analysis", "buildable_area",
   "elevation_change", "tree_coverage", "well_analysis", "wetland_analysis",
   "pond_analysis", "lake_analysis", "stream_intersection", "flood_hazard",
   "sea_ocean_length", "shoreline_analysis"]

/-- Keys of `image_tasks_map`, built only when `generate_images` is set. -/
def image_task_keys : List String :=
  ["image_url", "road_frontage_image_url", "flood_image_url", "tree_image_url",
   "contour_image_url", "water_image_url"]

/-- Environment of one `get_analysis` call: the outcome of
`__get_parcel_data` (`Except.error` when it raises, `ok none` when the gid
matches no parcel, `ok (some fields)` otherwise), the outcome of each metric
or image coroutine keyed by its task name, whether the `_save_results` commit
succeeds, and the measured duration. -/
structure AnalysisEnv where
  parcelFetch : Except String (Option Row)
  metricOutcome : String → Except String JVal
  saveOk : Bool
  durationSec : Int

/-- Result of one `get_analysis` call: the returned document, the analysis
table afterwards, and the names of the metric/image functions that were
invoked during the call. -/
structure AnalysisCallResult where
  result : JVal
  store : AnalysisStore
  metricCalls : List String

/-- The document returned when the gid matches no parcel. -/
def noParcelDoc (gid : Nat) : JVal :=
  JVal.jobj [("error", JVal.jstr ("No parcel found with GID: " ++ toString gid))]

/-- The document returned by the outer exception handler of `get_analysis`. -/
def criticalErrorDoc (e : String) (gid : Nat) : JVal :=
  JVal.jobj [("error", JVal.jstr e), ("gid", JVal.jnum (Int.ofNat gid))]

/-- The `meta` block of a freshly computed document. -/
def metaDoc (mode : String) (batch_id : Option String) (dur : Int) : JVal :=
  JVal.jobj [("processing_mode", JVal.jstr mode),
             ("batch_id", match batch_id with
                          | some b => JVal.jstr b
                          | none => JVal.jnull),
             ("execution_time_seconds", JVal.jnum dur)]

/-- The cache-hit update of the existing record in batch mode: `batch_id` and
`processing_mode` are rewritten, `result_data` is reassigned to the value just
read from it (a no-op), and `csv_source_data` is overwritten only when a
context was supplied. -/
def touchRecord (batch_id : Option String) (csv_context : Option Row)
    (r : AnalysisResult) : AnalysisResult :=
  { r with batch_id := batch_id,
           processing_mode := "batch",
           csv_source_data := match csv_context with
                              | some c => some c
                              | none => r.csv_source_data }

/-- `AnalysisService._save_results`: upsert of the computed document keyed by
parcel gid; a failed commit rolls back and leaves the table untouched. -/
def _save_results (store : AnalysisStore) (gid : Nat) (data : JVal)
    (batch_id : Option String) (mode : String) (csv_context : Option Row)
    (saveOk : Bool) : AnalysisStore :=
  if saveOk then
    match findRecord store gid with
    | some _ =>
      store.map (fun r =>
        if r.parcel_gid = gid then
          { r with result_data := data,
                   batch_id := batch_id,
                   processing_mode := mode,
                   csv_source_data := match csv_context with
                                      | some c => some c
                                      | none => r.csv_source_data }
        else r)
    | none => store ++ [⟨gid, data, batch_id, mode, csv_context⟩]
  else store

/-- The cache-miss body of `get_analysis`: fetch parcel attributes, fan out
every metric (and, when image generation is on, every image task) through
`_safe_run`, merge the fragments with the parcel attributes and the meta
block, and upsert the merged document.  A parcel-fetch exception is caught by
the outer handler; a missing parcel returns the "No parcel found" document
without invoking any task. -/
def computeAnalysis (gid : Nat) (store : AnalysisStore) (mode : String)
    (batch_id : Option String) (generate_images : Bool)
    (csv_context : Option Row) (env : AnalysisEnv) : AnalysisCallResult :=
  match env.parcelFetch with
  | .error e => ⟨criticalErrorDoc e gid, store, []⟩
  | .ok none => ⟨noParcelDoc gid, store, []⟩
  | .ok (some parcel_data) =>
    let keys := analysis_task_keys ++ (if generate_images then image_task_keys else [])
    let fragments := keys.map (fun k => _safe_run k (env.metricOutcome k))
    let final := JVal.jobj ([("parcels", JVal.jobj parcel_data)] ++ fragments ++
      [("meta", metaDoc mode batch_id env.durationSec)])
    ⟨final, _save_results store gid final batch_id mode csv_context env.saveOk, keys⟩

/-- `AnalysisService.get_analysis`: unless a refresh is forced, an existing
persisted record short-circuits the call — its stored document is returned
with no metric invoked, and in batch mode the record's bookkeeping columns are
refreshed in place.  Otherwise the document is computed and persisted. -/
def get_analysis (gid : Nat) (store : AnalysisStore) (processing_mode : String)
    (batch_id : Option String) (generate_images : Bool) (force_refresh : Bool)
    (csv_context : Option Row) (env : AnalysisEnv) : AnalysisCallResult :=
  if force_refresh then
    computeAnalysis gid store processing_mode batch_id generate_images csv_context env
  else
    match findRecord store gid with
    | some existing =>
      if processing_mode = "batch" then
        ⟨existing.result_data,
         store.map (fun r =>
           if r.parcel_gid = gid then touchRecord batch_id csv_context r else r),
         []⟩
      else ⟨existing.result_data, store, []⟩
    | none =>
      computeAnalysis gid store processing_mode batch_id generate_images csv_context env

/-! ## Concrete fixtures used by witnesses and counterexamples -/

/-- A job record with the given identity, priority, status and creation time;
all remaining fields at their defaults. -/
def mkJob (id : String) (p : JobPriority) (s : JobStatus) (c : Nat) : BatchJob :=
  { job_id := id, priority := p, status := s, total_rows := 0,
    completed_rows := 0, failed_rows := 0, error_message := none,
    result_url := none, created_at := c, started_at := none,
    completed_at := none }

/-- Status of the job with the given id in a store. -/
def statusOf (store : List BatchJob) (id : String) : Option JobStatus :=
  (store.find? (fun j => j.job_id == id)).map (·.status)

/-- Store with two PROCESSING jobs (one free slot), an older LOW-priority
QUEUED job and a newer HIGH-priority QUEUED job. -/
def cxStore : List BatchJob :=
  [mkJob "p1" JobPriority.normal JobStatus.processing 0,
   mkJob "p2" JobPriority.normal JobStatus.processing 0,
   mkJob "lowOld" JobPriority.low JobStatus.queued 1,
   mkJob "highNew" JobPriority.high JobStatus.queued 2]

/-- Store with two QUEUED jobs of different ages and three free slots. -/
def wStore : List BatchJob :=
  [mkJob "a" JobPriority.normal JobStatus.queued 1,
   mkJob "b" JobPriority.normal JobStatus.queued 2]

/-- Store holding a single QUEUED job at process startup. -/
def qStore : List BatchJob :=
  [mkJob "q" JobPriority.normal JobStatus.queued 1]

/-- The job of `qStore` after the scheduler's first tick promoted it. -/
def qPromoted : BatchJob :=
  { mkJob "q" JobPriority.normal JobStatus.queued 1 with
      status := JobStatus.processing, started_at := some 5 }

/-- A job already in the FAILED terminal state. -/
def failedJob : BatchJob := mkJob "jf" JobPriority.normal JobStatus.failed 0

/-- A job already CANCELLED. -/
def cancelledJob : BatchJob := mkJob "jc" JobPriority.normal JobStatus.cancelled 0

/-- Environment of a run whose file parsing raises. -/
def badParseEnv : JobEnv :=
  { job0 := some (mkJob "b" JobPriority.normal JobStatus.processing 0),
    parse := Except.error "bad bytes",
    refreshedStatus := JobStatus.processing,
    errJob := some (mkJob "b" JobPriority.normal JobStatus.processing 0),
    t := 2 }

/-- Environment of a run whose file parses to zero rows. -/
def emptyFileEnv : JobEnv :=
  { job0 := some (mkJob "z" JobPriority.normal JobStatus.processing 0),
    parse := Except.ok [],
    refreshedStatus := JobStatus.processing,
    errJob := some (mkJob "z" JobPriority.normal JobStatus.processing 0),
    t := 9 }

/-- A row task whose cancellation flag is already set at the entry check. -/
def cancelledTask : RowTask :=
  { row := [("a", JVal.jnum 1)], gid := some 7, analysis := Except.ok JVal.jnull,
    cancelledAtEntry := true, cancelledInSlot := false }

/-- A row task whose per-row analysis raises. -/
def errTask : RowTask :=
  { row := [("a", JVal.jnum 2)], gid := some 7,
    analysis := Except.error "boom",
    cancelledAtEntry := false, cancelledInSlot := false }

/-- A per-row result whose analysis document is error-free but whose
flood-hazard fragment is a failure fragment without a flood-zone value. -/
def floodRow : Row :=
  [("name", JVal.jstr "tract-1"),
   ("analysis", JVal.jobj
     [("parcels", JVal.jobj [("county", JVal.jstr "Travis")]),
      ("flood_hazard", errorFragment "flood layer offline")])]

/-- Environment of a run with one row that resolves to no parcel. -/
def okEnv : JobEnv :=
  { job0 := some (mkJob "ok" JobPriority.normal JobStatus.processing 0),
    parse := Except.ok
      [{ row := [("a", JVal.jnum 1)], gid := none,
         analysis := Except.ok JVal.jnull,
         cancelledAtEntry := false, cancelledInSlot := false }],
    refreshedStatus := JobStatus.processing,
    errJob := none,
    t := 4 }

/-- The job record `okEnv`'s run commits on completion. -/
def okJobFinal : BatchJob :=
  { mkJob "ok" JobPriority.normal JobStatus.processing 0 with
      status := JobStatus.completed, completed_at := some 4,
      completed_rows := 1, total_rows := 1,
      result_url := some (artifactPath "ok") }

/-- Analysis environment in which the parcel fetch succeeds, every metric
succeeds with a null payload, and the save commit succeeds. -/
def happyAnalysisEnv : AnalysisEnv :=
  { parcelFetch := Except.ok (some [("prop_id", JVal.jstr "x")]),
    metricOutcome := fun _ => Except.ok JVal.jnull,
    saveOk := true, durationSec := 0 }

/-- Analysis environment in which the gid matches no parcel. -/
def missingParcelEnv : AnalysisEnv :=
  { parcelFetch := Except.ok none,
    metricOutcome := fun _ => Except.ok JVal.jnull,
    saveOk := true, durationSec := 0 }

/-- Analysis environment in which the parcel-data fetch raises. -/
def errFetchEnv : AnalysisEnv :=
  { parcelFetch := Except.error "db down",
    metricOutcome := fun _ => Except.ok JVal.jnull,
    saveOk := true, durationSec := 0 }

/-! ## Helper lemmas -/

theorem isQueued_iff (s : JobStatus) : s.isQueued = true ↔ s = JobStatus.queued := by
  cases s <;> simp [JobStatus.isQueued]

theorem isProcessing_iff (s : JobStatus) :
    s.isProcessing = true ↔ s = JobStatus.processing := by
  cases s <;> simp [JobStatus.isProcessing]

theorem dget_cons (p : String × JVal) (d : Row) (k : String) :
    dget (p :: d) k = if p.1 = k then some p.2 else dget d k := by
  by_cases h : p.1 = k
  · have hb : (p.1 == k) = true := by simp [h]
    simp [dget, List.find?_cons, hb, h]
  · have hb : (p.1 == k) = false := by simp [h]
    simp [dget, List.find?_cons, hb, h]

theorem dget_dset_self (d : Row) (k : String) (v : JVal) :
    dget (dset d k v) k = some v := by
  induction d with
  | nil => simp [dset, dget_cons]
  | cons p rest ih =>
    by_cases h : p.1 = k
    · simp [dset, h, dget_cons]
    · simp [dset, h, dget_cons, ih]

theorem dget_dset_ne (d : Row) (k k' : String) (v : JVal) (h : k ≠ k') :
    dget (dset d k' v) k = dget d k := by
  induction d with
  | nil => simp [dset, dget_cons, dget, Ne.symm h]
  | cons p rest ih =>
    by_cases hp : p.1 = k'
    · have hpk : p.1 ≠ k := by rw [hp]; exact Ne.symm h
      simp [dset, hp, dget_cons, Ne.symm h, hpk]
    · by_cases hk : p.1 = k
      · simp [dset, hp, dget_cons, hk, h]
      · simp [dset, hp, dget_cons, hk, ih]

theorem sorted_take_mem {l : List BatchJob} {k : Nat} (hs : l.Sorted createdLE)
    {x y : BatchJob} (hx : x ∈ l) (hy : y ∈ l.take k)
    (hlt : x.created_at < y.created_at) : x ∈ l.take k := by
  have hx' : x ∈ l.take k ++ l.drop k := by rw [List.take_append_drop]; exact hx
  rcases List.mem_append.mp hx' with h | h
  · exact h
  · exfalso
    have hle : createdLE y x := hs.rel_of_mem_take_of_mem_drop hy h
    exact absurd hlt (not_lt.mpr hle)

theorem findRecord_mem {store : AnalysisStore} {gid : Nat} {r : AnalysisResult}
    (h : findRecord store gid = some r) : r ∈ store :=
  List.mem_of_find?_eq_some h

theorem findRecord_cons (a : AnalysisResult) (rest : AnalysisStore) (gid : Nat) :
    findRecord (a :: rest) gid =
      if a.parcel_gid = gid then some a else findRecord rest gid := by
  by_cases h : a.parcel_gid = gid
  · have hb : (a.parcel_gid == gid) = true := by simp [h]
    simp [findRecord, List.find?_cons, hb, h]
  · have hb : (a.parcel_gid == gid) = false := by simp [h]
    simp [findRecord, List.find?_cons, hb, h]

theorem findRecord_map_update {gid : Nat} (g : AnalysisResult → AnalysisResult)
    (hg : ∀ x, (g x).parcel_gid = x.parcel_gid) :
    ∀ (store : AnalysisStore) (r : AnalysisResult),
      findRecord store gid = some r →
      findRecord (store.map (fun x => if x.parcel_gid = gid then g x else x)) gid
        = some (g r) := by
  intro store
  induction store with
  | nil => intro r h; simp [findRecord] at h
  | cons a rest ih =>
    intro r h
    rw [findRecord_cons] at h
    by_cases ha : a.parcel_gid = gid
    · rw [if_pos ha] at h
      obtain rfl : a = r := Option.some.inj h
      simp only [List.map_cons, if_pos ha]
      rw [findRecord_cons, if_pos (by rw [hg]; exact ha)]
    · rw [if_neg ha] at h
      simp only [List.map_cons, if_neg ha]
      rw [findRecord_cons, if_neg ha]
      exact ih r h

theorem findRecord_append_single {gid : Nat} (rec : AnalysisResult)
    (hrec : rec.parcel_gid = gid) :
    ∀ store : AnalysisStore, findRecord store gid = none →
      findRecord (store ++ [rec]) gid = some rec := by
  intro store
  induction store with
  | nil =>
    intro _
    simp only [List.nil_append]
    rw [findRecord_cons, if_pos hrec]
  | cons a rest ih =>
    intro h
    rw [findRecord_cons] at h
    by_cases ha : a.parcel_gid = gid
    · rw [if_pos ha] at h; exact absurd h (by simp)
    · rw [if_neg ha] at h
      simp only [List.cons_append]
      rw [findRecord_cons, if_neg ha]
      exact ih h

theorem _process_row_some (rt : RowTask) (h1 : rt.cancelledAtEntry = false)
    (h2 : rt.cancelledInSlot = false) : ∃ r, _process_row rt = some r := by
  unfold _process_row
  rw [h1, h2]
  cases rt.gid with
  | none => exact ⟨_, rfl⟩
  | some g => cases rt.analysis with
    | ok v => exact ⟨_, rfl⟩
    | error e => exact ⟨_, rfl⟩

theorem row_pool_results_filter (tasks : List RowTask) :
    row_pool_results tasks =
      row_pool_results (tasks.filter
        (fun x => !x.cancelledAtEntry && !x.cancelledInSlot)) := by
  induction tasks with
  | nil => rfl
  | cons a rest ih =>
    by_cases h1 : a.cancelledAtEntry = true
    · have ha : _process_row a = none := by simp [_process_row, h1]
      simp [row_pool_results, List.filter_cons, h1, ha] at *
      exact ih
    · rw [Bool.not_eq_true] at h1
      by_cases h2 : a.cancelledInSlot = true
      · have ha : _process_row a = none := by simp [_process_row, h1, h2]
        simp [row_pool_results, List.filter_cons, h1, h2, ha] at *
        exact ih
      · rw [Bool.not_eq_true] at h2
        obtain ⟨r, hr⟩ := _process_row_some a h1 h2
        simp [row_pool_results, List.filter_cons, h1, h2, hr] at *
        exact ih

theorem recover_marks_processing (store : List BatchJob) (t : Nat) :
    ∀ j ∈ store, j.status = JobStatus.processing →
      { j with status := JobStatus.failed,
               error_message := some interruptedMessage,
               completed_at := some t } ∈ recover_stuck_jobs store t := by
  intro j hj hp
  refine List.mem_map.mpr ⟨j, hj, ?_⟩
  have hb : j.status.isProcessing = true := (isProcessing_iff _).mpr hp
  simp [hb]

theorem pjb_none (env : JobEnv) (jid : String) (h : env.job0 = none) :
    process_job_background env jid = ⟨none, none⟩ := by
  simp [process_job_background, h]

theorem pjb_cancelled_start (env : JobEnv) (jid : String) (j0 : BatchJob)
    (h : env.job0 = some j0) (hc : j0.status = JobStatus.cancelled) :
    process_job_background env jid = ⟨some j0, none⟩ := by
  simp [process_job_background, h, hc]

theorem pjb_parse_error (env : JobEnv) (jid : String) (j0 : BatchJob)
    (e : String) (h : env.job0 = some j0)
    (hc : ¬ j0.status = JobStatus.cancelled)
    (he : env.parse = Except.error e) :
    process_job_background env jid =
      ⟨env.errJob.map
          (fun j => failure_write j ("File parsing failed: " ++ e) env.t),
       none⟩ := by
  simp [process_job_background, h, hc, analyze_file, he]

theorem pjb_ok_refresh_cancelled (env : JobEnv) (jid : String) (j0 : BatchJob)
    (tasks : List RowTask) (h : env.job0 = some j0)
    (hc : ¬ j0.status = JobStatus.cancelled)
    (hp : env.parse = Except.ok tasks)
    (hr : env.refreshedStatus = JobStatus.cancelled) :
    process_job_background env jid =
      ⟨some { j0 with status := env.refreshedStatus }, none⟩ := by
  simp [process_job_background, h, hc, analyze_file, hp, hr]

theorem pjb_ok_completes (env : JobEnv) (jid : String) (j0 : BatchJob)
    (tasks : List RowTask) (h : env.job0 = some j0)
    (hc : ¬ j0.status = JobStatus.cancelled)
    (hp : env.parse = Except.ok tasks)
    (hr : ¬ env.refreshedStatus = JobStatus.cancelled) :
    process_job_background env jid =
      ⟨some (completion_write { j0 with status := env.refreshedStatus }
          (flatten_analysis_results (row_pool_results tasks)).length
          (artifactPath jid) env.t),
       some (flatten_analysis_results (row_pool_results tasks))⟩ := by
  simp [process_job_background, h, hc, analyze_file, hp, hr]

/-! ## Claim theorems -/

/-- C2 counterexample: a job already in the terminal state FAILED is not
protected against the completion write, which checks only for CANCELLED; the
write changes the status of a FAILED job to COMPLETED instead of being a
no-op. -/
theorem completion_write_unprotects_failed :
    failedJob.status.isTerminal = true ∧
    (completion_write failedJob 5 (artifactPath "jf") 7).status
      = JobStatus.completed ∧
    ¬ (completion_write failedJob 5 (artifactPath "jf") 7).status
      = failedJob.status := by
  decide

/-- C2 (amended): progress updates never change a job's status; once a job is
CANCELLED, the completion write, the failure write and the cancellation
request all leave it untouched; and a cancellation request on any terminal
status is a no-op.  (The completion and failure writes guard only against
CANCELLED, so they do not protect the other two terminal states.) -/
theorem terminal_write_guards (job : BatchJob)
    (completed total flattenedLen : Nat) (is_success : Bool)
    (path msg : String) (t : Nat) :
    (on_progress job completed total is_success).1.status = job.status ∧
    (job.status = JobStatus.cancelled →
      completion_write job flattenedLen path t = job) ∧
    (job.status = JobStatus.cancelled → failure_write job msg t = job) ∧
    (job.status.isTerminal = true → cancel_job job t = job) := by
  refine ⟨?_, ?_, ?_, ?_⟩
  · unfold on_progress
    split
    · split <;> rfl
    · rfl
  · intro h; simp [completion_write, h]
  · intro h; simp [failure_write, h]
  · intro h
    unfold cancel_job
    rw [if_neg]
    intro hc
    rcases hc with h1 | h1 <;> rw [h1] at h <;> simp [JobStatus.isTerminal] at h

/-- Witness for C2 (amended) at a concrete CANCELLED job. -/
theorem terminal_write_guards_witness :
    (on_progress cancelledJob 10 20 true).1.status = cancelledJob.status ∧
    completion_write cancelledJob 5 "p" 7 = cancelledJob ∧
    failure_write cancelledJob "boom" 7 = cancelledJob ∧
    cancel_job cancelledJob 7 = cancelledJob := by
  have h := terminal_write_guards cancelledJob 10 20 5 true "p" "boom" 7
  exact ⟨h.1, h.2.1 rfl, h.2.2.1 rfl, h.2.2.2 rfl⟩

/-- C4: a row task whose shared cancellation flag is set at either checkpoint
(on entry, before acquiring the semaphore, or inside the slot before
processing) yields `None`; the row pool's output set is exactly the output of
the tasks whose flag was clear at both checkpoints, so flagged rows are
excluded from the per-row results. -/
theorem cancelled_row_excluded (rt : RowTask) (tasks : List RowTask)
    (h : rt.cancelledAtEntry = true ∨ rt.cancelledInSlot = true) :
    _process_row rt = none ∧
    row_pool_results tasks =
      row_pool_results (tasks.filter
        (fun x => !x.cancelledAtEntry && !x.cancelledInSlot)) := by
  refine ⟨?_, row_pool_results_filter tasks⟩
  rcases h with h | h
  · simp [_process_row, h]
  · by_cases h1 : rt.cancelledAtEntry = true
    · simp [_process_row, h1]
    · rw [Bool.not_eq_true] at h1
      simp [_process_row, h1, h]

/-- Witness for C4 at a concrete task flagged at the entry checkpoint. -/
theorem cancelled_row_excluded_witness :
    _process_row cancelledTask = none ∧
    row_pool_results [cancelledTask] =
      row_pool_results ([cancelledTask].filter
        (fun x => !x.cancelledAtEntry && !x.cancelledInSlot)) :=
  cancelled_row_excluded cancelledTask [cancelledTask] (Or.inl rfl)

/-- C8 counterexample: startup does not guarantee the sweep acts before the
scheduler begins ticking.  On a store holding a single QUEUED job, a startup
in which the sweep's transaction completes first leaves the job PROCESSING
(the claimed behavior: the sweep finds nothing, the tick then admits the
job), while the equally schedulable startup in which the first tick's
promotion commits before the sweep's select ends with the freshly admitted
job FAILED, carrying the interrupted-by-restart message — an outcome
impossible under the claimed ordering. -/
theorem startup_sweep_tick_race :
    statusOf (lifespan_startup StartupOrder.sweepFirst qStore 3 5) "q"
      = some JobStatus.processing ∧
    statusOf (lifespan_startup StartupOrder.tickFirst qStore 3 5) "q"
      = some JobStatus.failed ∧
    (lifespan_startup StartupOrder.tickFirst qStore 3 5).map
        (fun j => j.error_message)
      = [some interruptedMessage] := by
  decide

/-- C8 (amended): whenever the recovery sweep runs, it transitions every job
it finds in PROCESSING to FAILED with the interrupted-by-restart message and
a completion timestamp, leaves every other job untouched, and leaves no
PROCESSING job behind.  `lifespan` creates the sweep task before the
scheduler task but never awaits it, so the sweep is not guaranteed to act
before the first tick: in the tick-first serialisation, every job the first
tick promoted is swept to FAILED with that same message. -/
theorem recover_stuck_jobs_sweep (store : List BatchJob) (t tTick : Nat) :
    activeCount (recover_stuck_jobs store t) = 0 ∧
    (∀ j ∈ store, j.status = JobStatus.processing →
      { j with status := JobStatus.failed,
               error_message := some interruptedMessage,
               completed_at := some t } ∈ recover_stuck_jobs store t) ∧
    (∀ j ∈ store, ¬ j.status = JobStatus.processing →
      j ∈ recover_stuck_jobs store t) ∧
    (∀ j ∈ run_job_scheduler_tick store tTick,
      j.status = JobStatus.processing →
      { j with status := JobStatus.failed,
               error_message := some interruptedMessage,
               completed_at := some t } ∈
        lifespan_startup StartupOrder.tickFirst store t tTick) := by
  refine ⟨?_, recover_marks_processing store t, ?_, ?_⟩
  · unfold activeCount recover_stuck_jobs
    rw [List.length_eq_zero, List.filter_eq_nil_iff]
    intro a ha
    obtain ⟨j, _, rfl⟩ := List.mem_map.mp ha
    cases hp : j.status.isProcessing
    · simp [hp]
    · simp [hp, JobStatus.isProcessing]
  · intro j hj hp
    refine List.mem_map.mpr ⟨j, hj, ?_⟩
    have hb : j.status.isProcessing = false := by
      cases hs : j.status <;> first | rfl | exact absurd hs hp
    simp [hb]
  · intro j hj hp
    exact recover_marks_processing (run_job_scheduler_tick store tTick) t j hj hp

/-- Witness for C8 (amended) at a store holding one PROCESSING job, a store
holding one QUEUED job, and the tick-first startup on the latter. -/
theorem recover_stuck_jobs_sweep_witness :
    { mkJob "st" JobPriority.normal JobStatus.processing 0 with
        status := JobStatus.failed,
        error_message := some interruptedMessage,
        completed_at := some 3 } ∈
      recover_stuck_jobs [mkJob "st" JobPriority.normal JobStatus.processing 0] 3 ∧
    mkJob "q" JobPriority.normal JobStatus.queued 1 ∈ recover_stuck_jobs qStore 3 ∧
    { qPromoted with
        status := JobStatus.failed,
        error_message := some interruptedMessage,
        completed_at := some 3 } ∈
      lifespan_startup StartupOrder.tickFirst qStore 3 5 := by
  refine ⟨?_, ?_, ?_⟩
  · exact (recover_stuck_jobs_sweep
        [mkJob "st" JobPriority.normal JobStatus.processing 0] 3 0).2.1 _
      (by simp) rfl
  · exact (recover_stuck_jobs_sweep qStore 3 0).2.2.1 _ (by decide) (by decide)
  · exact (recover_stuck_jobs_sweep qStore 3 5).2.2.2 qPromoted (by decide) rfl

/-- C3 counterexample: a file that parses to zero rows does not fail the job;
the run ends with status COMPLETED and an empty artifact, contradicting the
claim that a zero-row file transitions the job straight to FAILED. -/
theorem zero_row_file_completes :
    emptyFileEnv.parse = Except.ok [] ∧
    (process_job_background emptyFileEnv "z").job.map (fun j => j.status)
      = some JobStatus.completed ∧
    (process_job_background emptyFileEnv "z").artifact = some [] :=
  ⟨rfl, rfl, rfl⟩

/-- C3 (amended): an unreadable input file (any parsing exception) transitions
the job straight to FAILED with the descriptive "File parsing failed" message
and no artifact, before any row is processed; a readable file with zero
parseable rows instead completes the job with an empty artifact. -/
theorem process_job_background_file_errors (env : JobEnv) (jid : String) :
    (∀ e, env.parse = Except.error e →
      (process_job_background env jid).artifact = none ∧
      (∀ ej, env.errJob = some ej → ¬ ej.status = JobStatus.cancelled →
        ∀ j0, env.job0 = some j0 → ¬ j0.status = JobStatus.cancelled →
          (process_job_background env jid).job.map (fun j => j.status)
              = some JobStatus.failed ∧
          (process_job_background env jid).job.map (fun j => j.error_message)
              = some (some ("Error: " ++ ("File parsing failed: " ++ e))))) ∧
    (env.parse = Except.ok [] →
      ∀ j0, env.job0 = some j0 → ¬ j0.status = JobStatus.cancelled →
        ¬ env.refreshedStatus = JobStatus.cancelled →
        (process_job_background env jid).job.map (fun j => j.status)
            = some JobStatus.completed ∧
        (process_job_background env jid).artifact = some []) := by
  constructor
  · intro e he
    constructor
    · cases hjob : env.job0 with
      | none => rw [pjb_none env jid hjob]
      | some j0 =>
        by_cases hc : j0.status = JobStatus.cancelled
        · rw [pjb_cancelled_start env jid j0 hjob hc]
        · rw [pjb_parse_error env jid j0 e hjob hc he]
    · intro ej hej hterm j0 hj0 hc0
      rw [pjb_parse_error env jid j0 e hj0 hc0 he, hej]
      simp [failure_write, hterm]
  · intro he j0 hj0 hc0 hr
    rw [pjb_ok_completes env jid j0 [] hj0 hc0 he hr]
    exact ⟨by simp [completion_write, hr], rfl⟩

/-- Witness for C3 (amended) at a concrete run whose file parsing raises and
a concrete run whose file parses to zero rows. -/
theorem process_job_background_file_errors_witness :
    (process_job_background badParseEnv "b").artifact = none ∧
    (process_job_background badParseEnv "b").job.map (fun j => j.status)
      = some JobStatus.failed ∧
    (process_job_background emptyFileEnv "z").job.map (fun j => j.status)
      = some JobStatus.completed := by
  have h := (process_job_background_file_errors badParseEnv "b").1 "bad bytes" rfl
  have h2 := (process_job_background_file_errors emptyFileEnv "z").2 rfl
    (mkJob "z" JobPriority.normal JobStatus.processing 0) rfl (by decide)
    (by decide)
  exact ⟨h.1,
    (h.2 (mkJob "b" JobPriority.normal JobStatus.processing 0) rfl (by decide)
       (mkJob "b" JobPriority.normal JobStatus.processing 0) rfl (by decide)).1,
    h2.1⟩

/-- C6: an exception raised while analyzing one row is recorded as that row's
own error entry; the pool output of the sibling rows before and after it is
unchanged and the job-level call still succeeds; and a failing metric task is
converted by `_safe_run` into an `{error, status: failed}` fragment under its
own key only, leaving the fragments of every other metric untouched. -/
theorem row_metric_error_isolation (pre post : List RowTask) (rt : RowTask)
    (e : String) (g : Nat) (hg : rt.gid = some g)
    (ha : rt.analysis = Except.error e)
    (h1 : rt.cancelledAtEntry = false) (h2 : rt.cancelledInSlot = false) :
    _process_row rt = some (dset rt.row "error" (JVal.jstr e)) ∧
    row_pool_results (pre ++ rt :: post) =
      row_pool_results pre ++
        dset rt.row "error" (JVal.jstr e) :: row_pool_results post ∧
    (∀ jid, ∃ out, analyze_file (Except.ok (pre ++ rt :: post)) jid
        = Except.ok out) ∧
    (∀ (ms1 ms2 : List (String × Except String JVal)) (k : String),
      (ms1 ++ (k, Except.error e) :: ms2).map (fun p => _safe_run p.1 p.2) =
        ms1.map (fun p => _safe_run p.1 p.2) ++
          (k, errorFragment e) :: ms2.map (fun p => _safe_run p.1 p.2)) := by
  have hrow : _process_row rt = some (dset rt.row "error" (JVal.jstr e)) := by
    simp [_process_row, h1, h2, hg, ha]
  refine ⟨hrow, ?_, ?_, ?_⟩
  · unfold row_pool_results
    rw [List.map_append, List.filterMap_append]
    simp [hrow, row_pool_results]
  · intro jid; exact ⟨_, rfl⟩
  · intro ms1 ms2 k
    rw [List.map_append]
    simp [_safe_run]

/-- Witness for C6 at a concrete row task whose analysis raises. -/
theorem row_metric_error_isolation_witness :
    _process_row errTask = some (dset errTask.row "error" (JVal.jstr "boom")) ∧
    row_pool_results ([] ++ errTask :: []) =
      row_pool_results [] ++
        dset errTask.row "error" (JVal.jstr "boom") :: row_pool_results [] := by
  have h := row_metric_error_isolation [] [] errTask "boom" 7 rfl rfl rfl rfl
  exact ⟨h.1, h.2.1⟩

/-- C7: the materializer emits exactly one flattened record per per-row
result; a row whose analysis is absent or carries an error keeps only its
original fields (no derived column is populated); and when the analysis
document is present and error-free but its flood-hazard fragment has no
flood-zone value, the flattened row's flood_zone column takes the documented
default "X". -/
theorem flatten_analysis_results_shape (results : List Row) (row : Row) :
    (flatten_analysis_results results).length = results.length ∧
    ((dgetObj row "analysis").isEmpty = true ∨
        dcontains (dgetObj row "analysis") "error" = true →
      flatten_row row = row.filter (fun p => !(p.1 == "analysis"))) ∧
    ((dgetObj row "analysis").isEmpty = false →
      dcontains (dgetObj row "analysis") "error" = false →
      dget (dgetObj (dgetObj row "analysis") "flood_hazard") "flood_zone_summary"
        = none →
      dget (flatten_row row) "flood_zone" = some (JVal.jstr "X")) := by
  refine ⟨List.length_map _ _, ?_, ?_⟩
  · intro h
    unfold flatten_row
    rcases h with h | h <;> simp [h]
  · intro h1 h2 h3
    unfold flatten_row
    simp only [h1, h2, Bool.not_false, Bool.and_self, if_pos]
    rw [dget_dset_ne _ "flood_zone" "img_topo" _ (by decide),
        dget_dset_ne _ "flood_zone" "img_flood" _ (by decide),
        dget_dset_ne _ "flood_zone" "img_parcel" _ (by decide),
        dget_dset_ne _ "flood_zone" "electric_lines" _ (by decide),
        dget_dset_ne _ "flood_zone" "gas_pipeline" _ (by decide),
        dget_dset_ne _ "flood_zone" "has_water_well" _ (by decide),
        dget_dset_ne _ "flood_zone" "wetland_acres" _ (by decide),
        dget_dset_self]
    simp [dgetD, h3]

/-- Witness for C7 at a concrete row whose flood-hazard metric failed. -/
theorem flatten_analysis_results_shape_witness :
    (flatten_analysis_results [floodRow]).length = [floodRow].length ∧
    dget (flatten_row floodRow) "flood_zone" = some (JVal.jstr "X") := by
  have h := flatten_analysis_results_shape [floodRow] floodRow
  exact ⟨h.1, h.2.2 rfl rfl rfl⟩

/-- C9: whenever a run of the background processor leaves its job record in
status COMPLETED, a result artifact was written, both `completed_rows` and
`total_rows` equal the number of rows of that artifact, and `result_url`
holds the artifact's path. -/
theorem completed_job_invariant (env : JobEnv) (jid : String) (j : BatchJob)
    (hj : (process_job_background env jid).job = some j)
    (hs : j.status = JobStatus.completed) :
    ∃ rows, (process_job_background env jid).artifact = some rows ∧
      j.completed_rows = rows.length ∧ j.total_rows = rows.length ∧
      j.result_url = some (artifactPath jid) := by
  cases hjob : env.job0 with
  | none => rw [pjb_none env jid hjob] at hj; exact absurd hj (by simp)
  | some j0 =>
    by_cases hc : j0.status = JobStatus.cancelled
    · rw [pjb_cancelled_start env jid j0 hjob hc] at hj
      obtain rfl : j0 = j := Option.some.inj hj
      rw [hc] at hs
      exact absurd hs (by decide)
    · cases hp : env.parse with
      | error e =>
        rw [pjb_parse_error env jid j0 e hjob hc hp] at hj
        cases hej : env.errJob with
        | none => rw [hej] at hj; exact absurd hj (by simp)
        | some ej =>
          rw [hej] at hj
          simp only [Option.map_some'] at hj
          obtain rfl := Option.some.inj hj
          unfold failure_write at hs
          by_cases hce : ej.status = JobStatus.cancelled
          · rw [if_pos hce] at hs
            rw [hce] at hs
            exact absurd hs (by decide)
          · rw [if_neg hce] at hs
            simp at hs
      | ok tasks =>
        by_cases hr : env.refreshedStatus = JobStatus.cancelled
        · rw [pjb_ok_refresh_cancelled env jid j0 tasks hjob hc hp hr] at hj
          obtain rfl := Option.some.inj hj
          have hcon : env.refreshedStatus = JobStatus.completed := hs
          rw [hr] at hcon
          exact absurd hcon (by decide)
        · rw [pjb_ok_completes env jid j0 tasks hjob hc hp hr] at hj
          obtain rfl := Option.some.inj hj
          refine ⟨flatten_analysis_results (row_pool_results tasks),
            by rw [pjb_ok_completes env jid j0 tasks hjob hc hp hr], ?_, ?_, ?_⟩ <;>
            simp [completion_write, hr]

/-- Witness for C9 at a concrete successful run with one row. -/
theorem completed_job_invariant_witness :
    ∃ rows, (process_job_background okEnv "ok").artifact = some rows ∧
      okJobFinal.completed_rows = rows.length ∧
      okJobFinal.total_rows = rows.length ∧
      okJobFinal.result_url = some (artifactPath "ok") :=
  completed_job_invariant okEnv "ok" okJobFinal (by decide) rfl

/-- C1 counterexample: with one free slot, the scheduler tick admits the
older LOW-priority queued job and leaves the newer HIGH-priority queued job
waiting, contradicting priority-then-FIFO (highest priority first)
selection. -/
theorem scheduler_ignores_priority :
    activeCount cxStore < MAX_CONCURRENT_JOBS ∧
    statusOf cxStore "lowOld" = some JobStatus.queued ∧
    statusOf cxStore "highNew" = some JobStatus.queued ∧
    (mkJob "lowOld" JobPriority.low JobStatus.queued 1).priority
      = JobPriority.low ∧
    (mkJob "highNew" JobPriority.high JobStatus.queued 2).priority
      = JobPriority.high ∧
    statusOf (run_job_scheduler_tick cxStore 5) "lowOld"
      = some JobStatus.processing ∧
    statusOf (run_job_scheduler_tick cxStore 5) "highNew"
      = some JobStatus.queued := by
  decide

/-- C1 (amended): each scheduler tick is a no-op when the PROCESSING count
has reached the ceiling of 3; otherwise it selects at most the free-slot
number of QUEUED jobs ordered by `created_at` alone (oldest first, priority
playing no part), and transitions exactly the selected jobs to PROCESSING
with a start timestamp. -/
theorem run_job_scheduler_tick_fifo (store : List BatchJob) (t : Nat) :
    (¬ activeCount store < MAX_CONCURRENT_JOBS →
      run_job_scheduler_tick store t = store) ∧
    (selectedJobs store).length ≤ MAX_CONCURRENT_JOBS - activeCount store ∧
    (∀ j ∈ selectedJobs store, j.status = JobStatus.queued) ∧
    (∀ j1 j2 : BatchJob, j1 ∈ store → j2 ∈ store →
      j1.status = JobStatus.queued → j2.status = JobStatus.queued →
      j1.created_at < j2.created_at →
      j2 ∈ selectedJobs store → j1 ∈ selectedJobs store) ∧
    (activeCount store < MAX_CONCURRENT_JOBS →
      run_job_scheduler_tick store t = store.map (fun j =>
        if (selectedJobs store).any (fun r => r.job_id == j.job_id) then
          { j with status := JobStatus.processing, started_at := some t }
        else j)) := by
  refine ⟨?_, ?_, ?_, ?_, ?_⟩
  · intro h; unfold run_job_scheduler_tick; rw [if_neg h]
  · unfold selectedJobs
    rw [List.length_take]
    exact min_le_left _ _
  · intro j hj
    unfold selectedJobs at hj
    have hj' := List.take_subset _ _ hj
    have hj'' := (List.perm_insertionSort createdLE _).subset hj'
    exact (isQueued_iff _).mp (List.mem_filter.mp hj'').2
  · intro j1 j2 h1 h2 hq1 hq2 hlt hsel
    unfold selectedJobs at hsel ⊢
    have hmem : j1 ∈ List.insertionSort createdLE
        (store.filter fun j => j.status.isQueued) := by
      apply (List.perm_insertionSort createdLE _).mem_iff.mpr
      exact List.mem_filter.mpr ⟨h1, (isQueued_iff _).mpr hq1⟩
    exact sorted_take_mem (List.sorted_insertionSort createdLE _) hmem hsel hlt
  · intro h; unfold run_job_scheduler_tick; rw [if_pos h]

/-- Witness for C1 (amended): in a store with two queued jobs and three free
slots, admission of the newer job forces admission of the older one. -/
theorem run_job_scheduler_tick_fifo_witness :
    mkJob "a" JobPriority.normal JobStatus.queued 1 ∈ selectedJobs wStore :=
  (run_job_scheduler_tick_fifo wStore 0).2.2.2.1
    (mkJob "a" JobPriority.normal JobStatus.queued 1)
    (mkJob "b" JobPriority.normal JobStatus.queued 2)
    (by decide) (by decide) rfl rfl (by decide) (by decide)

theorem get_analysis_hit (gid : Nat) (store : AnalysisStore) (mode : String)
    (bid : Option String) (gi : Bool) (ctx : Option Row) (env : AnalysisEnv)
    (r : AnalysisResult) (hrec : findRecord store gid = some r) :
    (get_analysis gid store mode bid gi false ctx env).result = r.result_data ∧
    (get_analysis gid store mode bid gi false ctx env).metricCalls = [] ∧
    findRecord (get_analysis gid store mode bid gi false ctx env).store gid
      = some (if mode = "batch" then touchRecord bid ctx r else r) := by
  by_cases hm : mode = "batch"
  · have hfind :=
      findRecord_map_update (touchRecord bid ctx) (fun x => rfl) store r hrec
    simp [get_analysis, hrec, hm, hfind]
  · simp [get_analysis, hrec, hm]

theorem get_analysis_miss_persists (gid : Nat) (store : AnalysisStore)
    (mode : String) (bid : Option String) (gi : Bool) (ctx : Option Row)
    (env : AnalysisEnv) (pd : Row) (hrec : findRecord store gid = none)
    (hfetch : env.parcelFetch = Except.ok (some pd))
    (hsave : env.saveOk = true) :
    findRecord (get_analysis gid store mode bid gi false ctx env).store gid
      = some ⟨gid, (get_analysis gid store mode bid gi false ctx env).result,
              bid, mode, ctx⟩ := by
  simp only [get_analysis, hrec]
  simp only [computeAnalysis, hfetch]
  simp only [_save_results, hsave, if_true, hrec]
  exact findRecord_append_single _ rfl store hrec

theorem computeAnalysis_isObj (gid : Nat) (store : AnalysisStore)
    (mode : String) (bid : Option String) (gi : Bool) (ctx : Option Row)
    (env : AnalysisEnv) :
    (computeAnalysis gid store mode bid gi ctx env).result.isObj = true := by
  cases hpf : env.parcelFetch with
  | error e => simp [computeAnalysis, hpf, criticalErrorDoc, JVal.isObj]
  | ok o => cases o with
    | none => simp [computeAnalysis, hpf, noParcelDoc, JVal.isObj]
    | some pd => simp [computeAnalysis, hpf, JVal.isObj]

theorem computeAnalysis_no_parcel (gid : Nat) (store : AnalysisStore)
    (mode : String) (bid : Option String) (gi : Bool) (ctx : Option Row)
    (env : AnalysisEnv) (h : env.parcelFetch = Except.ok none) :
    (computeAnalysis gid store mode bid gi ctx env).result = noParcelDoc gid := by
  simp [computeAnalysis, h]

theorem computeAnalysis_fetch_error (gid : Nat) (store : AnalysisStore)
    (mode : String) (bid : Option String) (gi : Bool) (ctx : Option Row)
    (env : AnalysisEnv) (e : String) (h : env.parcelFetch = Except.error e) :
    (computeAnalysis gid store mode bid gi ctx env).result
      = criticalErrorDoc e gid := by
  simp [computeAnalysis, h]

theorem get_analysis_compute_eq (gid : Nat) (store : AnalysisStore)
    (mode : String) (bid : Option String) (gi fr : Bool) (ctx : Option Row)
    (env : AnalysisEnv) (h : fr = true ∨ findRecord store gid = none) :
    get_analysis gid store mode bid gi fr ctx env
      = computeAnalysis gid store mode bid gi ctx env := by
  rcases h with h | h
  · subst h; simp [get_analysis]
  · cases fr
    · simp [get_analysis, h]
    · simp [get_analysis]

/-- C5: a second `get_analysis` call for the same gid with no force-refresh
returns exactly the document the first call persisted (whether the first call
was a cache hit itself or computed and saved the document), and the second
call invokes no spatial-analysis metric or image function at all. -/
theorem get_analysis_cache_idempotent (gid : Nat) (store : AnalysisStore)
    (mode1 mode2 : String) (bid1 bid2 : Option String) (gi1 gi2 : Bool)
    (ctx1 ctx2 : Option Row) (env1 env2 : AnalysisEnv) (pd : Row)
    (hfetch : env1.parcelFetch = Except.ok (some pd))
    (hsave : env1.saveOk = true) :
    (get_analysis gid
        (get_analysis gid store mode1 bid1 gi1 false ctx1 env1).store
        mode2 bid2 gi2 false ctx2 env2).result
      = (get_analysis gid store mode1 bid1 gi1 false ctx1 env1).result ∧
    (get_analysis gid
        (get_analysis gid store mode1 bid1 gi1 false ctx1 env1).store
        mode2 bid2 gi2 false ctx2 env2).metricCalls = [] := by
  cases hrec : findRecord store gid with
  | some r =>
    obtain ⟨hres1, -, hfind1⟩ :=
      get_analysis_hit gid store mode1 bid1 gi1 ctx1 env1 r hrec
    obtain ⟨hres2, hcalls2, -⟩ :=
      get_analysis_hit gid _ mode2 bid2 gi2 ctx2 env2 _ hfind1
    refine ⟨?_, hcalls2⟩
    rw [hres2, hres1]
    by_cases hm : mode1 = "batch" <;> simp [hm, touchRecord]
  | none =>
    have hpersist := get_analysis_miss_persists gid store mode1 bid1 gi1 ctx1
      env1 pd hrec hfetch hsave
    obtain ⟨hres2, hcalls2, -⟩ :=
      get_analysis_hit gid _ mode2 bid2 gi2 ctx2 env2 _ hpersist
    exact ⟨by rw [hres2], hcalls2⟩

/-- Witness for C5: two batch-mode calls for gid 1 on an initially empty
analysis table, with a succeeding fetch and save. -/
theorem get_analysis_cache_idempotent_witness :
    (get_analysis 1 (get_analysis 1 [] "batch" (some "B") false false none
        happyAnalysisEnv).store "batch" (some "B2") false false none
        happyAnalysisEnv).result
      = (get_analysis 1 [] "batch" (some "B") false false none
          happyAnalysisEnv).result ∧
    (get_analysis 1 (get_analysis 1 [] "batch" (some "B") false false none
        happyAnalysisEnv).store "batch" (some "B2") false false none
        happyAnalysisEnv).metricCalls = [] :=
  get_analysis_cache_idempotent 1 [] "batch" "batch" (some "B") (some "B2")
    false false none none happyAnalysisEnv happyAnalysisEnv
    [("prop_id", JVal.jstr "x")] rfl rfl

/-- C10: `get_analysis` always returns a dictionary (the outer handler turns
every internal exception into a document, so no exception reaches the
caller); when the computation path runs and the parcel fetch raises, the
returned dictionary is the error document carrying the exception text; and an
unknown gid yields exactly the "No parcel found with GID" document. -/
theorem get_analysis_never_raises (gid : Nat) (store : AnalysisStore)
    (mode : String) (bid : Option String) (gi fr : Bool) (ctx : Option Row)
    (env : AnalysisEnv) :
    ((∀ r ∈ store, r.result_data.isObj = true) →
      (get_analysis gid store mode bid gi fr ctx env).result.isObj = true) ∧
    (fr = true ∨ findRecord store gid = none →
      env.parcelFetch = Except.ok none →
      (get_analysis gid store mode bid gi fr ctx env).result = noParcelDoc gid) ∧
    (∀ e, fr = true ∨ findRecord store gid = none →
      env.parcelFetch = Except.error e →
      (get_analysis gid store mode bid gi fr ctx env).result
        = criticalErrorDoc e gid) := by
  refine ⟨?_, ?_, ?_⟩
  · intro hstore
    cases fr with
    | true =>
      rw [get_analysis_compute_eq gid store mode bid gi true ctx env (Or.inl rfl)]
      exact computeAnalysis_isObj gid store mode bid gi ctx env
    | false =>
      cases hrec : findRecord store gid with
      | some r =>
        obtain ⟨hres, -, -⟩ :=
          get_analysis_hit gid store mode bid gi ctx env r hrec
        rw [hres]
        exact hstore r (findRecord_mem hrec)
      | none =>
        rw [get_analysis_compute_eq gid store mode bid gi false ctx env
          (Or.inr hrec)]
        exact computeAnalysis_isObj gid store mode bid gi ctx env
  · intro h hpf
    rw [get_analysis_compute_eq gid store mode bid gi fr ctx env h]
    exact computeAnalysis_no_parcel gid store mode bid gi ctx env hpf
  · intro e h hpf
    rw [get_analysis_compute_eq gid store mode bid gi fr ctx env h]
    exact computeAnalysis_fetch_error gid store mode bid gi ctx env e hpf

/-- Witness for C10 at gid 42 on an empty table: an unknown gid returns the
"No parcel found" document, a raising fetch returns the error document, and
both are dictionaries. -/
theorem get_analysis_never_raises_witness :
    (get_analysis 42 [] "single" none true false none missingParcelEnv).result
      = noParcelDoc 42 ∧
    (get_analysis 42 [] "single" none true false none errFetchEnv).result
      = criticalErrorDoc "db down" 42 ∧
    (get_analysis 42 [] "single" none true false none missingParcelEnv).result.isObj
      = true := by
  refine ⟨?_, ?_, ?_⟩
  · exact (get_analysis_never_raises 42 [] "single" none true false none
      missingParcelEnv).2.1 (Or.inr rfl) rfl
  · exact (get_analysis_never_raises 42 [] "single" none true false none
      errFetchEnv).2.2 "db down" (Or.inr rfl) rfl
  · exact (get_analysis_never_raises 42 [] "single" none true false none
      missingParcelEnv).1 (fun r hr => absurd hr (List.not_mem_nil r))

end Property
